import Mathlib

/-!
Verification of the gendist evolutionary engine (src/gendist.cpp), by a
shallow embedding of its data model and operations into Lean.

Modelling conventions:
* a C++ `std::vector<T>` is a `List`;
* the genes of the voting-district instantiation are reference-counted
  shared records (`std::shared_ptr<VotingDistrict>`); the heap of those
  records is modelled explicitly as an association list keyed by the
  district id, and a gene held by an Individual is the id of its record
  (in the program every record is inserted into the lookup map and into
  the prototype under its own id, so the id is a faithful pointer);
* `double` rates are modelled as exact rationals;
* a random draw from `std::uniform_int_distribution<>(0, k)` is modelled
  by an explicit `Nat` parameter together with the bound `c ≤ k` in the
  theorems (the support of the distribution); a `std::shuffle` outcome is
  modelled by an explicit list constrained to be a permutation of the
  shuffled range;
* a call of `std::vector::at` or a map `at` with an out-of-range index,
  and a `uniform_int_distribution` whose range is empty (its precondition
  `a <= b` violated, which is undefined behaviour), are modelled by
  `Option`/failure (`none`).
-/

/-- Gene record of the discrete genotype, from `struct VotingDistrict`
(src/gendist.cpp lines 30-43).  Ids are `Int` (C++ `int`). -/
structure VotingDistrict where
  voting_district_id : Int
  leg_district_id : Int
  republicans : Int
  democrats : Int
  other : Int
  neighbors : List Int
deriving Repr, DecidableEq

/-- `DistrictLookup` (src/gendist.cpp lines 122-123), a `std::map` from a
district id to the shared record; doubles as the heap of shared gene
records, since individuals hold `shared_ptr`s to exactly these records. -/
def DistrictLookup : Type := List (Int × VotingDistrict)

instance : DecidableEq DistrictLookup := by
  unfold DistrictLookup
  infer_instance

/-- Map lookup, `vdists.at(key)` (`none` models the `std::out_of_range`
throw on a missing key); also models dereferencing a gene pointer. -/
def DistrictLookup.at (m : DistrictLookup) (key : Int) : Option VotingDistrict :=
  List.lookup key m

/-- In-place update of the record stored under `key`, modelling an
assignment through the shared pointer to that record. -/
def DistrictLookup.set (m : DistrictLookup) (key : Int) (v : VotingDistrict) : DistrictLookup :=
  m.map (fun p => if p.1 = key then (p.1, v) else p)

/-- `VotingDistrictMutator::operator()` (src/gendist.cpp lines 130-139).
`vdists` is the mutator's map of shared records (which is also the heap the
individual's genes point into), `indiv` the individual (a vector of gene
pointers, modelled as record ids), `i` the drawn gene position and `j` the
drawn neighbor position.  The source does
`vdist->leg_district_id = vdists.at(other_vdist)->leg_district_id;`:
an assignment through the shared record, returned here as the updated heap.
The returned individual is the by-value copy `indiv` (same gene pointers).
When the chosen record has no neighbors, the draw `j` comes from
`uniform_int_distribution<>(0, -1)` and `neighbors.at(j)` cannot succeed:
every outcome is a failure (`none`). -/
def VotingDistrictMutator (vdists : DistrictLookup) (indiv : List Int)
    (i j : Nat) : Option (DistrictLookup × List Int) := do
  let vdist_id ← indiv.get? i
  let vdist ← vdists.at vdist_id
  let other_vdist ← vdist.neighbors.get? j
  let other ← vdists.at other_vdist
  some (vdists.set vdist_id { vdist with leg_district_id := other.leg_district_id }, indiv)

/-- `std::swap_ranges(first1, last1, first2)` as used by the crosser:
walk the first range, swapping element-for-element with the second range;
`none` when the second range runs out before the first (in C++ an
out-of-bounds access).  Elements of the second range beyond the length of
the first are untouched. -/
def swapRanges {α : Type} : List α → List α → Option (List α × List α)
  | [], ys => some ([], ys)
  | _ :: _, [] => none
  | x :: xs, y :: ys => (swapRanges xs ys).map (fun p => (y :: p.1, x :: p.2))

/-- `GenericCrosser::operator()` (src/gendist.cpp lines 145-150):
`std::swap_ranges(a.begin() + offset, a.end(), b.begin() + offset)`.
The drawn `offset` comes from `uniform_int_distribution<>(0, a.size()-1)`
and is passed explicitly.  In-place mutation of `a` and `b` is rendered as
returning the pair of new values; `none` models an out-of-bounds access. -/
def GenericCrosser {α : Type} (a b : List α) (offset : Nat) : Option (List α × List α) :=
  (swapRanges (a.drop offset) (b.drop offset)).map
    (fun p => (a.take offset ++ p.1, b.take offset ++ p.2))

theorem swapRanges_eq_of_length_eq {α : Type} :
    ∀ (xs ys : List α), xs.length = ys.length → swapRanges xs ys = some (ys, xs)
  | [], [], _ => rfl
  | [], _ :: _, h => by simp at h
  | _ :: _, [], h => by simp at h
  | x :: xs, y :: ys, h => by
      have h' : xs.length = ys.length := by simpa using h
      simp [swapRanges, swapRanges_eq_of_length_eq xs ys h']

theorem GenericCrosser_eq_of_length_eq {α : Type} (a b : List α) (c : Nat)
    (h : a.length = b.length) :
    GenericCrosser a b c = some (a.take c ++ b.drop c, b.take c ++ a.drop c) := by
  have hd : (a.drop c).length = (b.drop c).length := by simp [h]
  simp [GenericCrosser, swapRanges_eq_of_length_eq _ _ hd]

/-- Total wrapper around the crosser, used only inside the engine loop on
the local `new_pop` (whose contents the engine discards); an out-of-bounds
run leaves the pair as it was. -/
def GenericCrosserRun {α : Type} (a b : List α) (offset : Nat) : List α × List α :=
  (GenericCrosser a b offset).getD (a, b)

/-- `GeneticAlgorithmConfig` (src/gendist.cpp lines 69-78): a population
size and two rates.  This file stores the rates raw, with no clamping. -/
structure GeneticAlgorithmConfig where
  population_size : Nat
  mutation_rate : ℚ
  crossover_rate : ℚ
deriving Repr, DecidableEq

/-- State of `struct GeneticAlgorithm` (src/gendist.cpp lines 80-118):
the population and the derived counts; the gene type is abstract. -/
structure GeneticAlgorithm (α : Type) where
  population : List (List α)
  config : GeneticAlgorithmConfig
  num_mutate : Nat
  num_crossover : Nat

/-- The `GeneticAlgorithm` constructor (src/gendist.cpp lines 89-101):
push `population_size` copies of `prototype` (copies of the vector of gene
pointers, so each clone holds the same genes), then derive
`num_mutate = ceil(mutation_rate * population.size())` and
`num_crossover = ceil(crossover_rate * population.size())`, each cast to
`unsigned int` (`Int.toNat`).  The loop counter is a C++ `int`; the
embedding assumes `population_size` is within its range. -/
def mkGeneticAlgorithm {α : Type} (prototype : List α)
    (config : GeneticAlgorithmConfig) : GeneticAlgorithm α :=
  let population := List.replicate config.population_size prototype
  { population := population
    config := config
    num_mutate := (⌈config.mutation_rate * (population.length : ℚ)⌉).toNat
    num_crossover := (⌈config.crossover_rate * (population.length : ℚ)⌉).toNat }

/-- One invocation of an injected strategy, recorded so that theorems can
speak about which strategies a `generation()` call runs and on what. -/
inductive StrategyCall (α : Type) where
  | objectiveEval : List (List α) → StrategyCall α
  | mutatorCall : List α → StrategyCall α
  | crosserCall : List α → List α → StrategyCall α
deriving DecidableEq

def StrategyCall.isObjectiveEval {α : Type} : StrategyCall α → Bool
  | .objectiveEval _ => true
  | _ => false

/-- The crossover loop of `generation()` (src/gendist.cpp lines 108-111):
`for (it = new_pop.begin(); it < new_pop.begin() + num_crossover - 1; it += 2)
  crosser(*it, *(it + 1));`
which crosses the consecutive pairs `(0,1), (2,3), ...` — `num_crossover / 2`
of them (for `num_crossover = 0` the bound is `begin - 1` in pointer
arithmetic and the loop does not run, which `0 / 2 = 0` reproduces).
`k` numbers the pairs so each can receive its own drawn cut; the second
component of the result records the crosser invocations. -/
def crossPairs {α : Type} (cut : Nat → Nat) :
    Nat → Nat → List (List α) → List (List α) × List (StrategyCall α)
  | _, 0, l => (l, [])
  | k, pairs + 1, a :: b :: rest =>
      let p := GenericCrosserRun a b (cut k)
      let t := crossPairs cut (k + 1) pairs rest
      (p.1 :: p.2 :: t.1, StrategyCall.crosserCall a b :: t.2)
  | _, _ + 1, l => (l, [])

/-- Per-call randomness of one `generation()` step: the outcome of the
`std::shuffle` of the member population (line 105), the outcome function of
the `std::shuffle` of the local `new_pop` (line 107), and the crosser's
drawn cut for each crossed pair (line 148). -/
structure GenRandom (α : Type) where
  shuffled : List (List α)
  shuffle2 : List (List α) → List (List α)
  cut : Nat → Nat

/-- `GeneticAlgorithm::generation()` (src/gendist.cpp lines 103-112),
line by line:
`Population new_pop(population.size());` — `new_pop0`, default-constructed
(empty) individuals; `std::shuffle(population, ...)` — the member becomes
`r.shuffled`; `std::transform(population.begin(), population.begin() +
num_mutate, new_pop.begin(), mutator)` — the mutator runs on the first
`num_mutate` shuffled individuals and its results land in `new_pop`;
`std::shuffle(new_pop, ...)`; then the crossover loop over `new_pop`.
`new_pop` is a local variable: nothing of `new_pop1`/`new_pop2`/`crossed`
is ever assigned to the member `population`, so the state the call commits
is just the shuffled member.  The second component is the list of strategy
invocations the call makes, in order (note: none is an Objective
evaluation — the stored `objective` member is never used). -/
def generation {α : Type} (mutate : List α → List α)
    (ga : GeneticAlgorithm α) (r : GenRandom α) :
    GeneticAlgorithm α × List (StrategyCall α) :=
  let shuffled := r.shuffled
  let new_pop0 : List (List α) := List.replicate shuffled.length []
  let mutTargets := shuffled.take ga.num_mutate
  let new_pop1 := mutTargets.map mutate ++ new_pop0.drop ga.num_mutate
  let new_pop2 := r.shuffle2 new_pop1
  let crossed := crossPairs r.cut 0 (ga.num_crossover / 2) new_pop2
  ({ ga with population := shuffled },
    mutTargets.map StrategyCall.mutatorCall ++ crossed.2)

/-- Any number of successive `generation()` calls, one `GenRandom` per
call. -/
def runGenerations {α : Type} (mutate : List α → List α) :
    GeneticAlgorithm α → List (GenRandom α) → GeneticAlgorithm α
  | ga, [] => ga
  | ga, r :: rs => runGenerations mutate (generation mutate ga r).1 rs

/-- A run of randomness is valid when each step's `shuffled` list is a
permutation of the population the `std::shuffle` was applied to. -/
def validRun {α : Type} (mutate : List α → List α) :
    GeneticAlgorithm α → List (GenRandom α) → Prop
  | _, [] => True
  | ga, r :: rs =>
      r.shuffled.Perm ga.population ∧ validRun mutate (generation mutate ga r).1 rs

theorem crossed_getElem? {α : Type} (x y : List α) (c i : Nat) (hcx : c ≤ x.length) :
    (x.take c ++ y.drop c)[i]? = if i < c then x[i]? else y[i]? := by
  by_cases h : i < c
  · rw [if_pos h, List.getElem?_append_left (by simpa [Nat.min_eq_left hcx] using h),
      List.getElem?_take_of_lt h]
  · have hle : c ≤ i := Nat.le_of_not_lt h
    rw [if_neg h, List.getElem?_append_right (by simpa [Nat.min_eq_left hcx] using hle)]
    simp [Nat.min_eq_left hcx, List.getElem?_drop, Nat.add_sub_cancel' hle]

/-- Claim C6: for Individuals `a`, `b` of equal length `n ≥ 1` and any cut
`c` drawn from the support `[0, n-1]` of `uniform_int_distribution<>(0,
a.size()-1)`, the crosser succeeds and returns the pair with exactly the
tail segments `[c, n)` exchanged position-for-position; positions `[0, c)`
of each Individual are unchanged. -/
theorem GenericCrosser_swaps_tail {α : Type} (a b : List α) (n c : Nat)
    (ha : a.length = n) (hb : b.length = n) (hn : 1 ≤ n) (hc : c ≤ n - 1) :
    ∃ r1 r2, GenericCrosser a b c = some (r1, r2) ∧
      (∀ i, i < c → r1[i]? = a[i]? ∧ r2[i]? = b[i]?) ∧
      (∀ i, c ≤ i → r1[i]? = b[i]? ∧ r2[i]? = a[i]?) := by
  have hcn : c < n :=
    Nat.lt_of_le_of_lt hc (Nat.sub_lt (Nat.lt_of_lt_of_le Nat.one_pos hn) Nat.one_pos)
  have hca : c ≤ a.length := ha ▸ Nat.le_of_lt hcn
  have hcb : c ≤ b.length := hb ▸ Nat.le_of_lt hcn
  refine ⟨_, _, GenericCrosser_eq_of_length_eq a b c (ha.trans hb.symm), ?_, ?_⟩
  · intro i hi
    rw [crossed_getElem? a b c i hca, crossed_getElem? b a c i hcb, if_pos hi, if_pos hi]
    exact ⟨rfl, rfl⟩
  · intro i hi
    rw [crossed_getElem? a b c i hca, crossed_getElem? b a c i hcb,
      if_neg (Nat.not_lt.mpr hi), if_neg (Nat.not_lt.mpr hi)]
    exact ⟨rfl, rfl⟩

theorem GenericCrosser_swaps_tail_witness :
    ([10, 20, 30] : List Int).length = 3 ∧ ([1, 2, 3] : List Int).length = 3 ∧
    1 ≤ 3 ∧ 1 ≤ 3 - 1 ∧
    (∃ r1 r2, GenericCrosser ([10, 20, 30] : List Int) [1, 2, 3] 1 = some (r1, r2) ∧
      (∀ i, i < 1 → r1[i]? = ([10, 20, 30] : List Int)[i]? ∧ r2[i]? = ([1, 2, 3] : List Int)[i]?) ∧
      (∀ i, 1 ≤ i → r1[i]? = ([1, 2, 3] : List Int)[i]? ∧ r2[i]? = ([10, 20, 30] : List Int)[i]?)) :=
  ⟨rfl, rfl, by decide, by decide,
    GenericCrosser_swaps_tail [10, 20, 30] [1, 2, 3] 3 1 rfl rfl (by decide) (by decide)⟩

/-- Claim C7: single-point recombination preserves the multiset of gene
values across a crossed pair: the values of the two returned Individuals
together are exactly the values of `a` and `b` together. -/
theorem GenericCrosser_preserves_multiset {α : Type} (a b : List α) (n c : Nat)
    (ha : a.length = n) (hb : b.length = n) (hn : 1 ≤ n) (hc : c ≤ n - 1) :
    ∃ r1 r2, GenericCrosser a b c = some (r1, r2) ∧
      (r1 : Multiset α) + (r2 : Multiset α) = (a : Multiset α) + (b : Multiset α) := by
  refine ⟨_, _, GenericCrosser_eq_of_length_eq a b c (ha.trans hb.symm), ?_⟩
  have key : ∀ (x : List α),
      ((x.take c : List α) : Multiset α) + ((x.drop c : List α) : Multiset α)
        = (x : Multiset α) := by
    intro x
    rw [Multiset.coe_add, List.take_append_drop]
  calc ((a.take c ++ b.drop c : List α) : Multiset α) + ((b.take c ++ a.drop c : List α) : Multiset α)
      = (((a.take c : List α) : Multiset α) + ((b.drop c : List α) : Multiset α))
        + (((b.take c : List α) : Multiset α) + ((a.drop c : List α) : Multiset α)) := by
        simp only [← Multiset.coe_add]
    _ = (((a.take c : List α) : Multiset α) + ((a.drop c : List α) : Multiset α))
        + (((b.take c : List α) : Multiset α) + ((b.drop c : List α) : Multiset α)) := by
        abel
    _ = (a : Multiset α) + (b : Multiset α) := by rw [key a, key b]

theorem GenericCrosser_preserves_multiset_witness :
    ([10, 20, 30] : List Int).length = 3 ∧ ([1, 2, 3] : List Int).length = 3 ∧
    1 ≤ 3 ∧ 2 ≤ 3 - 1 ∧
    (∃ r1 r2, GenericCrosser ([10, 20, 30] : List Int) [1, 2, 3] 2 = some (r1, r2) ∧
      (r1 : Multiset Int) + (r2 : Multiset Int)
        = (([10, 20, 30] : List Int) : Multiset Int) + (([1, 2, 3] : List Int) : Multiset Int)) :=
  ⟨rfl, rfl, by decide, by decide,
    GenericCrosser_preserves_multiset [10, 20, 30] [1, 2, 3] 3 2 rfl rfl (by decide) (by decide)⟩

/-- Claim C10: for Individuals of equal length `n ≥ 1` the crosser is
total: every drawn offset in the support `[0, n-1]` is a valid position,
and the swap succeeds (`isSome`, i.e. no access it performs is out of
bounds in the model where an out-of-bounds access is `none`). -/
theorem GenericCrosser_in_bounds {α : Type} (a b : List α) (n c : Nat)
    (ha : a.length = n) (hb : b.length = n) (hn : 1 ≤ n) (hc : c ≤ n - 1) :
    c < n ∧ (GenericCrosser a b c).isSome = true := by
  have hcn : c < n :=
    Nat.lt_of_le_of_lt hc (Nat.sub_lt (Nat.lt_of_lt_of_le Nat.one_pos hn) Nat.one_pos)
  refine ⟨hcn, ?_⟩
  rw [GenericCrosser_eq_of_length_eq a b c (ha.trans hb.symm)]
  rfl

theorem GenericCrosser_in_bounds_witness :
    ([5, 6] : List Int).length = 2 ∧ ([7, 8] : List Int).length = 2 ∧
    1 ≤ 2 ∧ 1 ≤ 2 - 1 ∧
    (1 < 2 ∧ (GenericCrosser ([5, 6] : List Int) [7, 8] 1).isSome = true) :=
  ⟨rfl, rfl, by decide, by decide,
    GenericCrosser_in_bounds [5, 6] [7, 8] 2 1 rfl rfl (by decide) (by decide)⟩

/-- Claim C2: constructing the engine from a prototype and a valid config
yields a population of exactly `population_size` individuals, each value
equal to the prototype, before any `generation()` call. -/
theorem mkGeneticAlgorithm_clones_prototype {α : Type} (prototype : List α)
    (cfg : GeneticAlgorithmConfig) (h : 0 < cfg.population_size) :
    (mkGeneticAlgorithm prototype cfg).population.length = cfg.population_size ∧
    ∀ ind ∈ (mkGeneticAlgorithm prototype cfg).population, ind = prototype := by
  constructor
  · simp [mkGeneticAlgorithm]
  · intro ind hmem
    exact List.eq_of_mem_replicate (by simpa [mkGeneticAlgorithm] using hmem)

theorem mkGeneticAlgorithm_clones_prototype_witness :
    0 < (⟨5, 0.2, 0.4⟩ : GeneticAlgorithmConfig).population_size ∧
    ((mkGeneticAlgorithm [(10:Int), 20, 30] ⟨5, 0.2, 0.4⟩).population.length
        = (⟨5, 0.2, 0.4⟩ : GeneticAlgorithmConfig).population_size ∧
      ∀ ind ∈ (mkGeneticAlgorithm [(10:Int), 20, 30] ⟨5, 0.2, 0.4⟩).population,
        ind = [(10:Int), 20, 30]) :=
  ⟨by decide, mkGeneticAlgorithm_clones_prototype [(10:Int), 20, 30] ⟨5, 0.2, 0.4⟩ (by decide)⟩

/-- Claim C9: the derived counts stored at construction satisfy
`num_mutate = ceil(mutation_rate * population_size)` and
`num_crossover = ceil(crossover_rate * population_size)`; in particular
`population_size = 5` with `mutation_rate = 0.2` gives `num_mutate = 1`
and `crossover_rate = 0.4` gives `num_crossover = 2`. -/
theorem mkGeneticAlgorithm_derived_counts :
    (∀ {α : Type} (prototype : List α) (cfg : GeneticAlgorithmConfig),
      (mkGeneticAlgorithm prototype cfg).num_mutate
          = (⌈cfg.mutation_rate * (cfg.population_size : ℚ)⌉).toNat ∧
      (mkGeneticAlgorithm prototype cfg).num_crossover
          = (⌈cfg.crossover_rate * (cfg.population_size : ℚ)⌉).toNat) ∧
    (mkGeneticAlgorithm [(10:Int), 20, 30] ⟨5, 0.2, 0.4⟩).num_mutate = 1 ∧
    (mkGeneticAlgorithm [(10:Int), 20, 30] ⟨5, 0.2, 0.4⟩).num_crossover = 2 := by
  refine ⟨fun prototype cfg => ⟨?_, ?_⟩, ?_, ?_⟩
  · simp [mkGeneticAlgorithm]
  · simp [mkGeneticAlgorithm]
  · simp only [mkGeneticAlgorithm]
    norm_num
  · simp only [mkGeneticAlgorithm]
    norm_num
    rfl

theorem generation_population {α : Type} (mutate : List α → List α)
    (ga : GeneticAlgorithm α) (r : GenRandom α) :
    (generation mutate ga r).1.population = r.shuffled :=
  rfl

theorem runGenerations_length {α : Type} (mutate : List α → List α) :
    ∀ (rs : List (GenRandom α)) (ga : GeneticAlgorithm α), validRun mutate ga rs →
      (runGenerations mutate ga rs).population.length = ga.population.length
  | [], _, _ => rfl
  | r :: rs, ga, hv => by
      have h1 : (generation mutate ga r).1.population.length = ga.population.length := by
        rw [generation_population]
        exact hv.1.length_eq
      rw [runGenerations, runGenerations_length mutate rs _ hv.2, h1]

theorem validRun_take {α : Type} (mutate : List α → List α) :
    ∀ (rs : List (GenRandom α)) (ga : GeneticAlgorithm α) (k : Nat),
      validRun mutate ga rs → validRun mutate ga (rs.take k)
  | [], _, _, _ => by simp [validRun]
  | _ :: _, _, 0, _ => trivial
  | r :: rs, ga, k + 1, hv => ⟨hv.1, validRun_take mutate rs _ k hv.2⟩

/-- Claim C1: for a valid config and any number of successive
`generation()` calls, the population size equals
`config.population_size` after every call (the state after the first `k`
calls of a valid run, for every `k`).  `generation()` only ever reassigns
the member population to a shuffle of itself — the mutated/crossed
`new_pop` is a discarded local — so each call preserves the length. -/
theorem population_size_after_generations {α : Type} (mutate : List α → List α)
    (prototype : List α) (cfg : GeneticAlgorithmConfig)
    (hpos : 0 < cfg.population_size) (rs : List (GenRandom α)) (k : Nat)
    (hv : validRun mutate (mkGeneticAlgorithm prototype cfg) rs) :
    (runGenerations mutate (mkGeneticAlgorithm prototype cfg) (rs.take k)).population.length
      = cfg.population_size := by
  rw [runGenerations_length mutate _ _ (validRun_take mutate rs _ k hv)]
  simp [mkGeneticAlgorithm]

def c1Mutate : List Nat → List Nat := fun ind => ind

def c1Cfg : GeneticAlgorithmConfig := ⟨2, 0.5, 0.5⟩

def c1Random : GenRandom Nat :=
  { shuffled := [[1], [1]], shuffle2 := fun l => l, cut := fun _ => 0 }

theorem population_size_after_generations_witness :
    0 < c1Cfg.population_size ∧
    validRun c1Mutate (mkGeneticAlgorithm [1] c1Cfg) [c1Random] ∧
    (runGenerations c1Mutate (mkGeneticAlgorithm [1] c1Cfg)
        ([c1Random].take 1)).population.length = c1Cfg.population_size := by
  have hv : validRun c1Mutate (mkGeneticAlgorithm [1] c1Cfg) [c1Random] :=
    ⟨List.Perm.refl _, trivial⟩
  exact ⟨by decide, hv,
    population_size_after_generations c1Mutate [1] c1Cfg (by decide) [c1Random] 1 hv⟩

def c3Mutate : List Int → List Int := fun ind => ind.map (fun g => g + 1)

def c3Random : GenRandom Int :=
  { shuffled := [[0]], shuffle2 := fun l => l, cut := fun _ => 0 }

/-- Claim C3, evaluated at a failing input: with `population_size = 1`,
`mutation_rate = 1` (so `num_mutate = 1`) the sole individual `[0]` is
selected and the mutator (here mapping `[0]` to `[1]`) is invoked on it,
yet after `generation()` the engine's population is still `[[0]]` — the
mutated individuals live only in the discarded local `new_pop`, so the
mutated population is never committed as the engine's observable state. -/
theorem generation_discards_mutated_individuals :
    (mkGeneticAlgorithm [(0:Int)] ⟨1, 1, 0⟩).num_mutate = 1 ∧
    c3Mutate [0] = [1] ∧
    (generation c3Mutate (mkGeneticAlgorithm [(0:Int)] ⟨1, 1, 0⟩) c3Random).2
      = [StrategyCall.mutatorCall [0]] ∧
    (generation c3Mutate (mkGeneticAlgorithm [(0:Int)] ⟨1, 1, 0⟩) c3Random).1.population
      = [[0]] ∧
    [(1:Int)] ∉
      (generation c3Mutate (mkGeneticAlgorithm [(0:Int)] ⟨1, 1, 0⟩) c3Random).1.population := by
  have hga : mkGeneticAlgorithm [(0:Int)] ⟨1, 1, 0⟩
      = { population := [[0]], config := ⟨1, 1, 0⟩, num_mutate := 1, num_crossover := 0 } := by
    simp only [mkGeneticAlgorithm, GeneticAlgorithm.mk.injEq]
    norm_num
  rw [hga]
  exact ⟨rfl, rfl, rfl, rfl, by decide⟩

theorem filter_isObjectiveEval_map_mutatorCall {α : Type} :
    ∀ (l : List (List α)),
      ((l.map (StrategyCall.mutatorCall (α := α))).filter StrategyCall.isObjectiveEval) = []
  | [] => rfl
  | x :: xs => by
      simp [List.filter, StrategyCall.isObjectiveEval,
        filter_isObjectiveEval_map_mutatorCall xs]

theorem crossPairs_no_objectiveEval {α : Type} (cut : Nat → Nat) :
    ∀ (k pairs : Nat) (l : List (List α)),
      ((crossPairs cut k pairs l).2.filter StrategyCall.isObjectiveEval) = []
  | _, 0, _ => rfl
  | _, _ + 1, [] => rfl
  | _, _ + 1, [_] => rfl
  | k, pairs + 1, _ :: _ :: rest => by
      simp [crossPairs, List.filter, StrategyCall.isObjectiveEval,
        crossPairs_no_objectiveEval cut (k + 1) pairs rest]

/-- Claim C4, refuted on the code: no `generation()` call ever evaluates
the injected Objective on anything — the strategy invocations a call makes
contain no Objective evaluation at all (the `objective` member is stored
at construction and never used), so in particular no fitness snapshot is
taken before mutation. -/
theorem generation_never_evaluates_objective {α : Type} (mutate : List α → List α)
    (ga : GeneticAlgorithm α) (r : GenRandom α) :
    ((generation mutate ga r).2.filter StrategyCall.isObjectiveEval) = [] := by
  simp only [generation]
  rw [List.filter_append, filter_isObjectiveEval_map_mutatorCall,
    crossPairs_no_objectiveEval, List.nil_append]

def c5Store : DistrictLookup :=
  [(1, { voting_district_id := 1, leg_district_id := 10, republicans := 0,
         democrats := 0, other := 0, neighbors := [2] }),
   (2, { voting_district_id := 2, leg_district_id := 20, republicans := 0,
         democrats := 0, other := 0, neighbors := [1] })]

/-- Claim C5, evaluated at a failing input: the mutator, applied to the
individual `[1]` (gene pointing at district 1, whose label is 10 and whose
neighbor is district 2 with label 20), assigns through the shared record:
afterwards the record stored in the AdjacencyReference under id 1 carries
label 20, not its prior label 10 — the backing record is mutated, and with
it the gene of every other Individual whose gene points at record 1. -/
theorem VotingDistrictMutator_mutates_shared_record :
    VotingDistrictMutator c5Store [1] 0 0
      = some
        ([(1, { voting_district_id := 1, leg_district_id := 20, republicans := 0,
                democrats := 0, other := 0, neighbors := [2] }),
          (2, { voting_district_id := 2, leg_district_id := 20, republicans := 0,
                democrats := 0, other := 0, neighbors := [1] })],
         [1]) ∧
    (c5Store.at 1).map VotingDistrict.leg_district_id = some 10 ∧
    ((VotingDistrictMutator c5Store [1] 0 0).map
        (fun res => (res.1.at 1).map VotingDistrict.leg_district_id)) = some (some 20) :=
  ⟨rfl, rfl, rfl⟩

def c8Store : DistrictLookup :=
  [(1, { voting_district_id := 1, leg_district_id := 10, republicans := 0,
         democrats := 0, other := 0, neighbors := [] })]

/-- Claim C8, evaluated at a failing input: on an individual whose chosen
gene record has zero neighbors, the mutator can never return normally —
for every possible neighbor draw `j` the result is a failure (`none`,
modelling the empty-range `uniform_int_distribution<>(0, -1)` and the
out-of-range `neighbors.at`); no value (and in particular not the input
unchanged) is produced, and no `DomainError` exists anywhere in the code
to be thrown. -/
theorem VotingDistrictMutator_zero_neighbors_fails :
    (c8Store.at 1).map VotingDistrict.neighbors = some [] ∧
    ∀ j : Nat, VotingDistrictMutator c8Store [1] 0 j = none :=
  ⟨rfl, fun _ => rfl⟩
